import Mathlib

/-! # Rin — AI invocation and configuration layer, formal model

Shallow embedding of the AI utility module (`utils/ai.ts`) and the config
service (`services/config.ts`) of the Rin repository. JavaScript runtime
values are modelled by `JSValue`; JS objects are association lists kept in
property order; thrown JS errors are modelled by `Except String`; the
inference runtime and the HTTP transport are oracle parameters, so theorems
quantifying over them capture independence from any network behaviour.
-/

namespace Rin

/-- Model of a JavaScript runtime value, covering the shapes this code
manipulates. Only own properties are modelled. -/
inductive JSValue where
  | jsUndefined
  | jsNull
  | jsBool (b : Bool)
  | jsNum (n : Int)
  | jsStr (s : String)
  | jsArr (elems : List JSValue)
  | jsObj (fields : List (String × JSValue))

open JSValue

/-- JS truthiness of a value. -/
def jsTruthy : JSValue → Bool
  | jsUndefined => false
  | jsNull => false
  | jsBool b => b
  | jsNum n => n != 0
  | jsStr s => s != ""
  | jsArr _ => true
  | jsObj _ => true

/-- Whether `typeof v === 'object'` holds (true for objects, arrays and
`null` in JavaScript). -/
def typeofIsObject : JSValue → Bool
  | jsNull => true
  | jsArr _ => true
  | jsObj _ => true
  | _ => false

/-- Whether `typeof v === 'string'` holds. -/
def typeofIsString : JSValue → Bool
  | jsStr _ => true
  | _ => false

/-- Property access `v[k]` restricted to object own properties; `none`
models `undefined` (also for access on primitives/arrays, whose named
properties the code never populates). -/
def jsGetOpt (v : JSValue) (k : String) : Option JSValue :=
  match v with
  | jsObj fields => fields.lookup k
  | _ => none

/-- Index access `v[i]` for arrays (and objects with numeric-string keys). -/
def jsIndex (v : JSValue) (i : Nat) : Option JSValue :=
  match v with
  | jsArr elems => elems.get? i
  | jsObj fields => fields.lookup (toString i)
  | _ => none

/-- Optional-chaining step `x?.…`: `none`, `null` and `undefined` all
short-circuit to `undefined`. -/
def jsChain (v : Option JSValue) (f : JSValue → Option JSValue) : Option JSValue :=
  match v with
  | none => none
  | some jsNull => none
  | some jsUndefined => none
  | some x => f x

/-- A JS object as an association list in property order. -/
abbrev JSObject := List (String × JSValue)

/-- Property assignment `o[k] = v`: overwrite in place if the key exists,
otherwise append (JS property-order semantics). -/
def objSet (o : JSObject) (k : String) (v : JSValue) : JSObject :=
  if (o.lookup k).isSome then
    o.map (fun p => if p.1 = k then (k, v) else p)
  else
    o ++ [(k, v)]

/-- Whether the character list `needle` occurs as a prefix of `hay`. -/
def matchesAt : List Char → List Char → Bool
  | [], _ => true
  | _ :: _, [] => false
  | n :: ns, h :: hs => n == h && matchesAt ns hs

/-- Whether `needle` occurs as a contiguous sublist of `hay`. -/
def hasSub (needle : List Char) : List Char → Bool
  | [] => matchesAt needle []
  | h :: hs => matchesAt needle (h :: hs) || hasSub needle hs

/-- Model of JavaScript `hay.includes(needle)`. -/
def strIncludes (hay needle : String) : Bool :=
  hasSub needle.toList hay.toList

/-- Model of JavaScript `s.startsWith(pre)`. -/
def strStartsWith (s pre : String) : Bool :=
  matchesAt pre.toList s.toList

/-- Model of JavaScript `s.replace(pat, repl)` (first occurrence only),
character-list worker. -/
def replaceFirstAux (pat repl : List Char) : List Char → List Char
  | [] => []
  | c :: cs =>
    if matchesAt pat (c :: cs) then repl ++ (c :: cs).drop pat.length
    else c :: replaceFirstAux pat repl cs

/-- Model of JavaScript `s.replace(pat, repl)` (first occurrence only). -/
def replaceFirst (s pat repl : String) : String :=
  if pat.toList = [] then ⟨repl.toList ++ s.toList⟩
  else ⟨replaceFirstAux pat.toList repl.toList s.toList⟩

/-- Escape of one character inside a JSON string literal. -/
def jsonEscapeChar (c : Char) : String :=
  if c = '"' then "\\\""
  else if c = '\\' then "\\\\"
  else if c = '\n' then "\\n"
  else String.singleton c

/-- A JSON string literal for `s`. -/
def jsonQuote (s : String) : String :=
  "\"" ++ String.join (s.toList.map jsonEscapeChar) ++ "\""

mutual

/-- Model of `JSON.stringify` on a value: `none` for `undefined` (which
`JSON.stringify` omits inside objects). -/
def jsonValue : JSValue → Option String
  | jsUndefined => none
  | jsNull => some "null"
  | jsBool b => some (if b then "true" else "false")
  | jsNum n => some (toString n)
  | jsStr s => some (jsonQuote s)
  | jsArr elems => some ("[" ++ String.intercalate "," (jsonArrElems elems) ++ "]")
  | jsObj fields => some ("\x7b" ++ String.intercalate "," (jsonObjFields fields) ++ "\x7d")

/-- Serialized array elements (`undefined` elements print as `null`). -/
def jsonArrElems : List JSValue → List String
  | [] => []
  | x :: xs => ((jsonValue x).getD "null") :: jsonArrElems xs

/-- Serialized object fields (`undefined`-valued fields are omitted). -/
def jsonObjFields : List (String × JSValue) → List String
  | [] => []
  | (k, v) :: fs =>
    match jsonValue v with
    | some s => (jsonQuote k ++ ":" ++ s) :: jsonObjFields fs
    | none => jsonObjFields fs

end

/-- `JSON.stringify` as used in the code, where it is only ever applied to
an object (so the `undefined` top-level case is unreachable). -/
def jsonStringify (v : JSValue) : String :=
  (jsonValue v).getD "undefined"

/-! ## The AI utility module (`utils/ai.ts`) -/

/-- `AI_PROVIDER_URLS`: provider presets with their default API base URLs. -/
def AI_PROVIDER_URLS : List (String × String) :=
  [("openai", "https://api.openai.com/v1"),
   ("claude", "https://api.anthropic.com/v1"),
   ("gemini", "https://generativelanguage.googleapis.com/v1beta/openai"),
   ("deepseek", "https://api.deepseek.com/v1")]

/-- `WORKER_AI_MODELS`: Cloudflare Worker AI model mapping
(short name to full model id). -/
def WORKER_AI_MODELS : List (String × String) :=
  [("llama-3-8b", "@cf/meta/llama-3-8b-instruct"),
   ("llama-3-1-8b", "@cf/meta/llama-3.1-8b-instruct"),
   ("llama-2-7b", "@cf/meta/llama-2-7b-chat-int8"),
   ("mistral-7b", "@cf/mistral/mistral-7b-instruct-v0.1"),
   ("mistral-7b-v2", "@cf/mistral/mistral-7b-instruct-v0.2-lora"),
   ("gemma-2b", "@cf/google/gemma-2b-it-lora"),
   ("gemma-7b", "@cf/google/gemma-7b-it-lora"),
   ("deepseek-coder", "@cf/deepseek-ai/deepseek-coder-6.7b-base-awq"),
   ("qwen-7b", "@cf/qwen/qwen1.5-7b-chat-awq"),]

/-- `getWorkerAIModelId`: `WORKER_AI_MODELS[shortName] || shortName` —
the JS `||` falls back on an empty-string table entry as well. -/
def getWorkerAIModelId (shortName : String) : String :=
  match WORKER_AI_MODELS.lookup shortName with
  | some full => if full = "" then shortName else full
  | none => shortName

/-- Response normalization of `executeWorkerAI`: the part of the function
after `await env.AI.run(...)` returns, applied to the returned value
(`null` is modelled by `jsNull`). -/
def normalizeWorkerAI (response : JSValue) : JSValue :=
  if jsTruthy response && typeofIsObject response then
    match jsGetOpt response "response" with
    | some v => v
    | none =>
      match jsGetOpt response "content" with
      | some v => v
      | none =>
        match jsGetOpt response "output" with
        | some v => v
        | none =>
          match jsGetOpt response "result" with
          | some v => v
          | none => jsStr (jsonStringify response)
  else if typeofIsString response then response
  else jsNull

/-- Oracle for `env.AI.run(modelId, \x7bmessages: [\x7brole: "user",
content: input\x7d]\x7d)`: takes the model id and the single user-message
content, returns the runtime's value or a thrown error's message. -/
def WorkerRuntime := String → String → Except String JSValue

/-- `executeWorkerAI`: invoke the runtime with a single-turn user message
and normalize the heterogeneous response shape. -/
def executeWorkerAI (ai : WorkerRuntime) (modelId input : String) :
    Except String JSValue :=
  (ai modelId input).map normalizeWorkerAI

/-- The request `executeExternalAI` builds for `fetch`. -/
structure HttpRequest where
  url : String
  method : String
  authorization : String
  contentType : String
  model : String
  messages : List (String × String)
  max_tokens : Nat
  temperature : Rat

/-- The parts of a `fetch` response the code consumes: `ok`, `status`,
`text()` and `json()`. -/
structure HttpResponse where
  ok : Bool
  status : Nat
  text : String
  json : JSValue

/-- Oracle for `fetch`: a network failure is a thrown error message
(for example `"fetch failed"`). -/
def Transport := HttpRequest → Except String HttpResponse

/-- The exact chat-completion request the code issues. -/
def mkChatRequest (base api_key model input : String) : HttpRequest :=
  ⟨base ++ "/chat/completions", "POST", "Bearer " ++ api_key,
   "application/json", model, [("user", input)], 500, 3 / 10⟩

/-- Model of JavaScript `s.trim()`: strip whitespace from both ends. -/
def jsTrim (s : String) : String :=
  ⟨((s.data.dropWhile Char.isWhitespace).reverse.dropWhile
    Char.isWhitespace).reverse⟩

/-- Extraction `data.choices?.[0]?.message?.content?.trim() || null` from a
parsed response body. A non-string `content` (which would raise a runtime
TypeError at `.trim()`) is modelled as no extraction. -/
def extractChatContent (data : JSValue) : Option String :=
  let content :=
    jsChain (jsChain (jsChain (jsGetOpt data "choices")
      (fun c => jsIndex c 0)) (fun m => jsGetOpt m "message"))
      (fun m => jsGetOpt m "content")
  match content with
  | some (jsStr s) => if jsTrim s = "" then none else some (jsTrim s)
  | _ => none

/-- The config record `executeExternalAI` receives. -/
structure ExternalAIConfig where
  provider : String
  model : String
  api_key : String
  api_url : String

/-- `executeExternalAI`: precondition checks, one POST to
`<base>/chat/completions`, error on non-success status, extraction of
`choices[0].message.content` on success. -/
def executeExternalAI (t : Transport) (config : ExternalAIConfig)
    (input : String) : Except String (Option String) :=
  if config.api_key = "" then .error "API key not configured"
  else
    let finalApiUrl :=
      if config.api_url != "" then config.api_url
      else (AI_PROVIDER_URLS.lookup config.provider).getD ""
    if finalApiUrl = "" then .error "API URL not configured"
    else
      match t (mkChatRequest finalApiUrl config.api_key config.model input) with
      | .error e => .error e
      | .ok resp =>
        if !resp.ok then
          .error ("API error " ++ toString resp.status ++ ": " ++ resp.text)
        else .ok (extractChatContent resp.json)

/-- The result record of `testAIModel` / `processAIError`. -/
structure TestResult where
  success : Bool
  response : Option JSValue
  error : Option String
  details : Option String

/-- `processAIError`: maps a raw error message to a user-facing category by
ordered substring matching; `msg` is `error.message` (`""` for a falsy
message, turned into `'Unknown error'` by the JS `||`). -/
def processAIError (msg model provider : String) : TestResult :=
  let originalMessage := if msg = "" then "Unknown error" else msg
  let pair :=
    if strIncludes originalMessage "fetch failed" ||
        strIncludes originalMessage "NetworkError" then
      ("Network error: Unable to connect to AI service",
       "Please check your API URL and network connection.")
    else if strIncludes originalMessage "401" ||
        strIncludes originalMessage "Unauthorized" then
      ("Authentication failed: Invalid API key",
       "Please check your API key is correct and not expired.")
    else if strIncludes originalMessage "429" then
      ("Rate limit exceeded", "Too many requests. Please wait a moment.")
    else if strIncludes originalMessage "404" then
      ("Model not found",
       "Model \"" ++ model ++ "\" not found for provider \"" ++ provider ++ "\".")
    else if strIncludes originalMessage "500" ||
        strIncludes originalMessage "503" then
      ("AI service temporarily unavailable",
       "Service is experiencing issues. Please try again later.")
    else if strIncludes originalMessage "Invalid" then
      ("AI model error: " ++ originalMessage,
       "Model \"" ++ model ++ "\" may not be supported. Please verify the model ID.")
    else (originalMessage, "")
  ⟨false, none, some pair.1,
   some (if pair.2 = "" then "Original: " ++ originalMessage else pair.2)⟩

/-- The config record `testAIModel` receives (`api_key`/`api_url` optional
in its TypeScript signature). -/
structure TestConfig where
  provider : String
  model : String
  api_url : Option String
  api_key : Option String

/-- JS `v || fallback` on an optional string. -/
def jsOrStrOpt (v : Option String) (fallback : String) : String :=
  match v with
  | some s => if s = "" then fallback else s
  | none => fallback

/-- An external provider's `string | null` result as a JS value. -/
def optStrToJS : Option String → JSValue
  | some s => jsStr s
  | none => jsNull

/-- `testAIModel`: route on `provider === 'worker-ai'`, classify a thrown
error with `processAIError`, report an empty/falsy result as
`'Empty response from AI'`. -/
def testAIModel (ai : WorkerRuntime) (t : Transport) (config : TestConfig)
    (testPrompt : String) : TestResult :=
  let attempt : Except String JSValue :=
    if config.provider = "worker-ai" then
      executeWorkerAI ai (getWorkerAIModelId config.model) testPrompt
    else
      (executeExternalAI t
        ⟨config.provider, config.model, jsOrStrOpt config.api_key "",
         jsOrStrOpt config.api_url ""⟩ testPrompt).map optStrToJS
  match attempt with
  | .ok result =>
    if jsTruthy result then ⟨true, some result, none, none⟩
    else ⟨false, none, some "Empty response from AI", none⟩
  | .error e => processAIError e config.model config.provider

/-- The persisted AI configuration (spec section 3 data model; the stored
record `getAIConfig` returns). -/
structure AIConfig where
  enabled : Bool
  provider : String
  model : String
  api_key : String
  api_url : String

/-- The `ExternalAIConfig` fields of a stored `AIConfig`, as passed by
`generateAISummary` when it hands the whole config to
`executeExternalAI`. -/
def externalConfigOf (c : AIConfig) : ExternalAIConfig :=
  ⟨c.provider, c.model, c.api_key, c.api_url⟩

/-- `content.length > maxContentLength ? content.slice(0, 8000) + "..." :
content` with `maxContentLength = 8000`. -/
def truncateContent (content : String) : String :=
  if content.length > 8000 then ⟨content.data.take 8000⟩ ++ "..." else content

/-- The fixed-language summarization instruction prompt of
`generateAISummary` (worker-ai branch). -/
def summaryPrompt (truncatedContent : String) : String :=
  "请用简洁的中文总结以下内容，不超过200字：\n\n" ++ truncatedContent

/-- `generateAISummary`: `null` when disabled, truncate, route on provider,
catch any thrown error as `null`. -/
def generateAISummary (ai : WorkerRuntime) (t : Transport) (config : AIConfig)
    (content : String) : JSValue :=
  if !config.enabled then jsNull
  else
    let truncatedContent := truncateContent content
    let attempt : Except String JSValue :=
      if config.provider = "worker-ai" then
        executeWorkerAI ai (getWorkerAIModelId config.model)
          (summaryPrompt truncatedContent)
      else
        (executeExternalAI t (externalConfigOf config) truncatedContent).map
          optStrToJS
    match attempt with
    | .ok result => result
    | .error _ => jsNull

/-- `getAvailableModels`: the known short names for worker-ai, empty for
every other provider. -/
def getAvailableModels (provider : String) : List String :=
  if provider = "worker-ai" then WORKER_AI_MODELS.map Prod.fst else []

/-- `requiresApiKey`: every provider except worker-ai needs a key. -/
def requiresApiKey (provider : String) : Bool :=
  provider != "worker-ai"

/-! ## The config service (`services/config.ts`) -/

/-- `SENSITIVE_FIELDS`: keys masked on any outbound read. -/
def SENSITIVE_FIELDS : List String := ["ai_summary.api_key"]

/-- `AI_CONFIG_KEYS`: the five flat AI config keys. -/
def AI_CONFIG_KEYS : List String :=
  ["ai_summary.enabled", "ai_summary.provider", "ai_summary.model",
   "ai_summary.api_key", "ai_summary.api_url"]

/-- `CLIENT_CONFIG_ENV_DEFAULTS`: client keys that fall back to
environment variables. -/
def CLIENT_CONFIG_ENV_DEFAULTS : List (String × String) :=
  [("site.name", "NAME"), ("site.description", "DESCRIPTION"),
   ("site.avatar", "AVATAR"), ("site.page_size", "PAGE_SIZE")]

/-- Masking of one entry: a truthy value under a sensitive key becomes the
fixed placeholder. -/
def maskVal (key : String) (value : JSValue) : JSValue :=
  if SENSITIVE_FIELDS.contains key && jsTruthy value then jsStr "••••••••"
  else value

/-- `maskSensitiveFields`: rebuild the config with sensitive truthy values
replaced by the placeholder. -/
def maskSensitiveFields (config : JSObject) : JSObject :=
  config.map (fun p => (p.1, maskVal p.1 p.2))

/-- `isAIConfigKey`: member of the declared key list, or any key starting
with the `ai_summary.` prefix. -/
def isAIConfigKey (key : String) : Bool :=
  AI_CONFIG_KEYS.contains key || strStartsWith key "ai_summary."

/-- Whether `result[key] === undefined || result[key] === ''` holds for an
object modelled as an association list. -/
def unsetOrEmpty (o : JSObject) (key : String) : Bool :=
  match o.lookup key with
  | none => true
  | some jsUndefined => true
  | some (jsStr s) => s == ""
  | some _ => false

/-- The environment as the code sees it: a named string value or nothing. -/
def EnvVars := String → Option String

/-- One iteration of the env-default loop of `getClientConfigWithDefaults`
for the pair `(configKey, envKey)`. -/
def applyEnvDefault (env : EnvVars) (o : JSObject) (p : String × String) :
    JSObject :=
  if unsetOrEmpty o p.1 then
    match env p.2 with
    | some envValue =>
      if envValue != "" then objSet o p.1 (jsStr envValue) else o
    | none => o
  else o

/-- `getClientConfigWithDefaults`: snapshot of the client store, env
defaults applied per key, then the `site.page_size` numeric default. -/
def getClientConfigWithDefaults (clientStore : JSObject) (env : EnvVars) :
    JSObject :=
  let result := CLIENT_CONFIG_ENV_DEFAULTS.foldl (applyEnvDefault env) clientStore
  if unsetOrEmpty result "site.page_size" then
    objSet result "site.page_size" (jsNum 5)
  else result

/-- What `getAIConfigForFrontend` returns for the AI sub-config. -/
structure AIConfigFrontend where
  enabled : Bool
  provider : String
  model : String
  api_url : String
  api_key_set : Bool

/-- Modelled from the spec: `getAIConfigForFrontend` (in `utils/db-config`,
whose source is not part of this corpus) returns the stored AI config with
the secret `api_key` replaced by the boolean `api_key_set`, "a boolean 'is
it set'": true exactly when a key is stored (non-empty). -/
def getAIConfigForFrontend (stored : AIConfig) : AIConfigFrontend :=
  ⟨stored.enabled, stored.provider, stored.model, stored.api_url,
   stored.api_key != ""⟩

/-- The `type === 'server'` branch of `GET /config/:type` (after the admin
check): server store snapshot, flattened AI fields, masking. -/
def getServerConfig (serverStore : JSObject) (stored : AIConfig) : JSObject :=
  let aiConfig := getAIConfigForFrontend stored
  let o := serverStore
  let o := objSet o "ai_summary.enabled"
    (jsStr (if aiConfig.enabled then "true" else "false"))
  let o := objSet o "ai_summary.provider" (jsStr aiConfig.provider)
  let o := objSet o "ai_summary.model" (jsStr aiConfig.model)
  let o := objSet o "ai_summary.api_url" (jsStr aiConfig.api_url)
  let o := objSet o "ai_summary.api_key"
    (jsStr (if aiConfig.api_key_set then "••••••••" else ""))
  maskSensitiveFields o

/-- The request body of `POST /config/test-ai` (all fields optional). -/
structure TestBody where
  provider : Option String
  model : Option String
  api_url : Option String
  api_key : Option String
  testPrompt : Option String

/-- The override build of the `POST /config/test-ai` handler: `provider`
and `model` via JS `||`, `api_url` and `api_key` via an explicit
`!== undefined` check. -/
def buildTestConfig (body : TestBody) (config : AIConfig) : TestConfig :=
  ⟨jsOrStrOpt body.provider config.provider,
   jsOrStrOpt body.model config.model,
   some (match body.api_url with | some u => u | none => config.api_url),
   some (match body.api_key with | some k => k | none => config.api_key)⟩

/-- `key.replace('ai_summary.', '')` of the `POST /config/:type` handler. -/
def stripAIKey (key : String) : String :=
  replaceFirst key "ai_summary." ""

/-- One iteration of the body-splitting loop of `POST /config/:type`. -/
def splitConfigStep (acc : JSObject × JSObject) (p : String × JSValue) :
    JSObject × JSObject :=
  if isAIConfigKey p.1 then (acc.1, objSet acc.2 (stripAIKey p.1) p.2)
  else (objSet acc.1 p.1 p.2, acc.2)

/-- The body-splitting loop of `POST /config/:type`: regular keys go to the
namespace store writes, AI keys (prefix stripped) to the AI config
writer. -/
def splitConfigBody (body : JSObject) : JSObject × JSObject :=
  body.foldl splitConfigStep ([], [])

/-- The first present field of the ordered `response`/`content`/`output`/
`result` check of `normalizeWorkerAI` (used to state its null-result
characterization). -/
def firstWorkerField (r : JSValue) : Option JSValue :=
  match jsGetOpt r "response" with
  | some v => some v
  | none =>
    match jsGetOpt r "content" with
    | some v => some v
    | none =>
      match jsGetOpt r "output" with
      | some v => some v
      | none => jsGetOpt r "result"

/-! ## Concrete oracles used to instantiate theorems -/

/-- A transport on which every request fails at the network level. -/
def tNoNetwork : Transport := fun _ => .error "fetch failed"

/-- A transport answering every request with HTTP 401. -/
def t401 : Transport :=
  fun _ => .ok ⟨false, 401, "Unauthorized request", JSValue.jsNull⟩

/-- A transport answering HTTP 401 with a body that contains the
network-error trigger substring. -/
def t401NetworkErr : Transport :=
  fun _ => .ok ⟨false, 401, "NetworkError", JSValue.jsNull⟩

/-- A transport that echoes the request's user-message content back as the
assistant message of a successful chat completion. -/
def tEcho : Transport :=
  fun req =>
    .ok ⟨true, 200, "",
      JSValue.jsObj [("choices", JSValue.jsArr [JSValue.jsObj
        [("message", JSValue.jsObj
          [("content", JSValue.jsStr
            (match req.messages with
             | (_, c) :: _ => c
             | [] => ""))])]])]⟩

/-- A worker runtime that always throws. -/
def aiBoom : WorkerRuntime := fun _ _ => .error "boom"

/-- An environment where only `NAME` is present and holds the empty
string. -/
def envNameEmpty : EnvVars :=
  fun k => if k = "NAME" then some "" else none

/-- An environment where only `NAME` is present (value `Acme`). -/
def envNameAcme : EnvVars :=
  fun k => if k = "NAME" then some "Acme" else none

/-! ## Helper lemmas -/

theorem matchesAt_refl : ∀ n : List Char, matchesAt n n = true
  | [] => rfl
  | _ :: ns => by simp [matchesAt, matchesAt_refl ns]

theorem matchesAt_append {n s : List Char} (t : List Char)
    (h : matchesAt n s = true) : matchesAt n (s ++ t) = true := by
  induction n generalizing s with
  | nil => rfl
  | cons n0 ns ih =>
    cases s with
    | nil => simp [matchesAt] at h
    | cons s0 ss =>
      simp [matchesAt] at h ⊢
      exact ⟨h.1, ih h.2⟩

theorem matchesAt_decomp {n h : List Char} (hm : matchesAt n h = true) :
    ∃ t, h = n ++ t := by
  induction n generalizing h with
  | nil => exact ⟨h, rfl⟩
  | cons n0 ns ih =>
    cases h with
    | nil => simp [matchesAt] at hm
    | cons h0 hs =>
      simp [matchesAt] at hm
      obtain ⟨t, ht⟩ := ih hm.2
      exact ⟨t, by simp [hm.1, ht]⟩

theorem hasSub_append_left {n pre : List Char} (rest : List Char)
    (h : hasSub n pre = true) : hasSub n (pre ++ rest) = true := by
  induction pre with
  | nil =>
    cases n with
    | nil => cases rest with
      | nil => rfl
      | cons r rs => simp [hasSub, matchesAt]
    | cons n0 ns => simp [hasSub, matchesAt] at h
  | cons c cs ih =>
    simp only [hasSub, Bool.or_eq_true] at h
    rcases h with h | h
    · simp only [List.cons_append, hasSub, Bool.or_eq_true]
      exact Or.inl (matchesAt_append rest h)
    · simp only [List.cons_append, hasSub, Bool.or_eq_true]
      exact Or.inr (ih h)

theorem hasSub_append_right {n rest : List Char} (pre : List Char)
    (h : hasSub n rest = true) : hasSub n (pre ++ rest) = true := by
  induction pre with
  | nil => exact h
  | cons c cs ih =>
    simp only [List.cons_append, hasSub, Bool.or_eq_true]
    exact Or.inr ih

theorem hasSub_append_no_head {n0 : Char} {ns pre : List Char}
    (rest : List Char) (h : n0 ∉ pre) :
    hasSub (n0 :: ns) (pre ++ rest) = hasSub (n0 :: ns) rest := by
  induction pre with
  | nil => rfl
  | cons c cs ih =>
    simp only [List.mem_cons, not_or] at h
    have hne : (n0 == c) = false := beq_eq_false_iff_ne.mpr h.1
    simp only [List.cons_append, hasSub, matchesAt, hne, Bool.false_and,
      Bool.false_or]
    exact ih h.2

theorem lookup_append_of_none {α : Type} {o : List (String × α)} {k : String}
    (l : List (String × α)) (h : o.lookup k = none) :
    (o ++ l).lookup k = l.lookup k := by
  induction o with
  | nil => rfl
  | cons p rest ih =>
    cases hk : (k == p.1) with
    | true =>
      exfalso
      obtain ⟨k1, v1⟩ := p
      simp [List.lookup, hk] at h
    | false =>
      obtain ⟨k1, v1⟩ := p
      simp only [List.lookup, List.cons_append] at h ⊢
      simp only [hk] at h ⊢
      exact ih h

theorem lookup_map_replace_self (o : JSObject) (k : String) (v : JSValue)
    (hs : (o.lookup k).isSome = true) :
    (o.map (fun p => if p.1 = k then (k, v) else p)).lookup k = some v := by
  induction o with
  | nil => simp [List.lookup] at hs
  | cons p rest ih =>
    obtain ⟨k1, v1⟩ := p
    by_cases hp : k1 = k
    · subst hp
      have hf : (if ((k1, v1) : String × JSValue).1 = k1 then (k1, v)
          else (k1, v1)) = (k1, v) := by simp
      rw [List.map_cons, hf]
      simp [List.lookup]
    · have hk : (k == k1) = false := beq_eq_false_iff_ne.mpr (Ne.symm hp)
      have hf : (if ((k1, v1) : String × JSValue).1 = k then (k, v)
          else (k1, v1)) = (k1, v1) := by simp [hp]
      simp only [List.lookup, hk] at hs
      rw [List.map_cons, hf]
      simp only [List.lookup, hk]
      exact ih hs

theorem lookup_map_replace_ne (o : JSObject) (k : String) (v : JSValue)
    {k' : String} (h : k' ≠ k) :
    (o.map (fun p => if p.1 = k then (k, v) else p)).lookup k' = o.lookup k' := by
  induction o with
  | nil => rfl
  | cons p rest ih =>
    obtain ⟨k1, v1⟩ := p
    by_cases hp : k1 = k
    · subst hp
      have hk : (k' == k1) = false := beq_eq_false_iff_ne.mpr h
      have hf : (if ((k1, v1) : String × JSValue).1 = k1 then (k1, v)
          else (k1, v1)) = (k1, v) := by simp
      rw [List.map_cons, hf]
      simp only [List.lookup, hk]
      exact ih
    · have hf : (if ((k1, v1) : String × JSValue).1 = k then (k, v)
          else (k1, v1)) = (k1, v1) := by simp [hp]
      rw [List.map_cons, hf]
      cases hk1 : (k' == k1) with
      | true => simp only [List.lookup, hk1]
      | false =>
        simp only [List.lookup, hk1]
        exact ih

theorem lookup_append_single_ne (o : JSObject) (k : String) (v : JSValue)
    {k' : String} (h : k' ≠ k) :
    (o ++ [(k, v)]).lookup k' = o.lookup k' := by
  induction o with
  | nil => simp [List.lookup, beq_eq_false_iff_ne.mpr h]
  | cons p rest ih =>
    obtain ⟨k1, v1⟩ := p
    cases hk1 : (k' == k1) with
    | true => simp [List.lookup, hk1]
    | false =>
      simp only [List.cons_append, List.lookup, hk1]
      exact ih

theorem lookup_objSet_self (o : JSObject) (k : String) (v : JSValue) :
    (objSet o k v).lookup k = some v := by
  unfold objSet
  cases hs : (o.lookup k).isSome with
  | false =>
    simp only [hs, Bool.false_eq_true, if_false]
    rw [lookup_append_of_none _ (Option.not_isSome_iff_eq_none.mp (by simp [hs]))]
    simp [List.lookup]
  | true =>
    simp only [hs, if_true]
    exact lookup_map_replace_self o k v hs

theorem lookup_objSet_ne (o : JSObject) (k : String) (v : JSValue)
    {k' : String} (h : k' ≠ k) :
    (objSet o k v).lookup k' = o.lookup k' := by
  unfold objSet
  have hk : (k' == k) = false := beq_eq_false_iff_ne.mpr h
  cases hs : (o.lookup k).isSome with
  | false =>
    simp only [hs, Bool.false_eq_true, if_false]
    exact lookup_append_single_ne o k v h
  | true =>
    simp only [hs, if_true]
    exact lookup_map_replace_ne o k v h

theorem strStartsWith_decomp {k pre : String}
    (h : strStartsWith k pre = true) : ∃ t, k.data = pre.data ++ t :=
  matchesAt_decomp h

theorem append_mk_data (a : String) (l : List Char) :
    (a ++ (⟨l⟩ : String)).data = a.data ++ l :=
  String.data_append a ⟨l⟩

theorem replaceFirstAux_of_matches {pat repl : List Char} (hay : List Char)
    (hpat : pat ≠ []) (hm : matchesAt pat hay = true) :
    replaceFirstAux pat repl hay = repl ++ hay.drop pat.length := by
  cases hay with
  | nil =>
    cases pat with
    | nil => exact absurd rfl hpat
    | cons p ps => simp [matchesAt] at hm
  | cons c cs =>
    simp only [replaceFirstAux]
    rw [if_pos hm]

theorem stripAIKey_of_decomp {k : String} {t : List Char}
    (h : k.data = "ai_summary.".data ++ t) : stripAIKey k = ⟨t⟩ := by
  unfold stripAIKey replaceFirst
  rw [if_neg (by decide)]
  have hk : k.toList = "ai_summary.".toList ++ t := h
  rw [hk, replaceFirstAux_of_matches _ (by decide)
    (matchesAt_append t (matchesAt_refl _))]
  rw [show ("" : String).toList = [] from rfl, List.nil_append, List.drop_left]

theorem stripAIKey_concat {k : String} (h : strStartsWith k "ai_summary." = true) :
    "ai_summary." ++ stripAIKey k = k := by
  obtain ⟨t, ht⟩ := strStartsWith_decomp h
  rw [stripAIKey_of_decomp ht]
  exact String.ext (by rw [append_mk_data, ← ht])

theorem isAIConfigKey_eq (k : String) :
    isAIConfigKey k = strStartsWith k "ai_summary." := by
  unfold isAIConfigKey
  cases hc : AI_CONFIG_KEYS.contains k with
  | false => simp
  | true =>
    have hk : k ∈ AI_CONFIG_KEYS := by
      simpa using hc
    have hsw : strStartsWith k "ai_summary." = true := by
      simp only [AI_CONFIG_KEYS, List.mem_cons, List.mem_singleton,
        List.not_mem_nil, or_false] at hk
      rcases hk with rfl | rfl | rfl | rfl | rfl <;> decide
    simp [hsw]

theorem lookup_applyEnvDefault_ne (env : EnvVars) (o : JSObject)
    (p : String × String) {k' : String} (h : p.1 ≠ k') :
    (applyEnvDefault env o p).lookup k' = o.lookup k' := by
  unfold applyEnvDefault
  cases hu : unsetOrEmpty o p.1 with
  | false => simp [hu]
  | true =>
    simp only [hu, if_true]
    cases he : env p.2 with
    | none => rfl
    | some envValue =>
      cases hne : (envValue != "") with
      | false => simp [hne]
      | true =>
        simp only [hne, if_true]
        exact lookup_objSet_ne o p.1 (jsStr envValue) (Ne.symm h)

theorem applyEnvDefault_of_set (env : EnvVars) (o : JSObject)
    (p : String × String) (h : unsetOrEmpty o p.1 = false) :
    applyEnvDefault env o p = o := by
  unfold applyEnvDefault
  simp [h]

theorem applyEnvDefault_subst (env : EnvVars) (o : JSObject)
    (p : String × String) (hu : unsetOrEmpty o p.1 = true) {e : String}
    (he : env p.2 = some e) (hne : e ≠ "") :
    applyEnvDefault env o p = objSet o p.1 (jsStr e) := by
  unfold applyEnvDefault
  simp [hu, he, hne]

theorem applyEnvDefault_noop (env : EnvVars) (o : JSObject)
    (p : String × String) (he : env p.2 = none ∨ env p.2 = some "") :
    applyEnvDefault env o p = o := by
  unfold applyEnvDefault
  rcases he with he | he <;> simp [he]

theorem unsetOrEmpty_congr {o o' : JSObject} {k : String}
    (h : o.lookup k = o'.lookup k) : unsetOrEmpty o k = unsetOrEmpty o' k := by
  unfold unsetOrEmpty
  rw [h]

theorem unsetOrEmpty_false_of_lookup {o : JSObject} {k : String} {w : JSValue}
    (hl : o.lookup k = some w) (h1 : w ≠ jsStr "") (h2 : w ≠ jsUndefined) :
    unsetOrEmpty o k = false := by
  unfold unsetOrEmpty
  rw [hl]
  cases w with
  | jsUndefined => exact absurd rfl h2
  | jsStr s =>
    have : s ≠ "" := fun hs => h1 (by rw [hs])
    simpa using this
  | jsNull => rfl
  | jsBool b => rfl
  | jsNum n => rfl
  | jsArr l => rfl
  | jsObj fs => rfl

theorem lookup_maskSensitiveFields (o : JSObject) (k : String) :
    (maskSensitiveFields o).lookup k = (o.lookup k).map (maskVal k) := by
  induction o with
  | nil => rfl
  | cons p rest ih =>
    obtain ⟨k1, v1⟩ := p
    have hf : (((k1, v1) : String × JSValue).1,
        maskVal ((k1, v1) : String × JSValue).1 ((k1, v1) : String × JSValue).2) =
        (k1, maskVal k1 v1) := rfl
    unfold maskSensitiveFields at ih ⊢
    rw [List.map_cons, hf]
    cases hk1 : (k == k1) with
    | true =>
      have hkk : k = k1 := by simpa using hk1
      subst hkk
      simp [List.lookup]
    | false =>
      simp only [List.lookup, hk1]
      exact ih

theorem lookup_pageStep_ne (o : JSObject) {k : String}
    (h : k ≠ "site.page_size") :
    (if unsetOrEmpty o "site.page_size" then
        objSet o "site.page_size" (jsNum 5)
      else o).lookup k = o.lookup k := by
  split
  · exact lookup_objSet_ne o "site.page_size" (jsNum 5) h
  · rfl

theorem lookup_env_stages_ne (env : EnvVars) (ps : List (String × String)) :
    ∀ (o : JSObject) (k : String), (∀ p ∈ ps, p.1 ≠ k) →
    (ps.foldl (applyEnvDefault env) o).lookup k = o.lookup k := by
  induction ps with
  | nil => intro o k _; rfl
  | cons p rest ih =>
    intro o k h
    simp only [List.foldl_cons]
    rw [ih _ k (fun q hq => h q (List.mem_cons_of_mem p hq))]
    exact lookup_applyEnvDefault_ne env o p (h p (List.mem_cons_self p rest))

theorem split_foldl_reg_none (body : JSObject) :
    ∀ (acc : JSObject × JSObject) (k : String), isAIConfigKey k = true →
    (body.foldl splitConfigStep acc).1.lookup k = acc.1.lookup k := by
  induction body with
  | nil => intro acc k _; rfl
  | cons p rest ih =>
    intro acc k h
    simp only [List.foldl_cons]
    rw [ih _ k h]
    unfold splitConfigStep
    cases hai : isAIConfigKey p.1 with
    | true => simp [hai]
    | false =>
      simp only [hai, Bool.false_eq_true, if_false]
      refine lookup_objSet_ne acc.1 p.1 p.2 ?_
      intro heq
      rw [← heq, h] at hai
      exact Bool.true_eq_false.mp hai

theorem split_foldl_ai_preserve (body : JSObject) :
    ∀ (acc : JSObject × JSObject) (k0 : String),
    (∀ p ∈ body, isAIConfigKey p.1 = true → stripAIKey p.1 ≠ k0) →
    (body.foldl splitConfigStep acc).2.lookup k0 = acc.2.lookup k0 := by
  induction body with
  | nil => intro acc k0 _; rfl
  | cons p rest ih =>
    intro acc k0 h
    simp only [List.foldl_cons]
    rw [ih _ k0 (fun q hq => h q (List.mem_cons_of_mem p hq))]
    unfold splitConfigStep
    cases hai : isAIConfigKey p.1 with
    | true =>
      simp only [hai, if_true]
      exact lookup_objSet_ne acc.2 (stripAIKey p.1) p.2
        (Ne.symm (h p (List.mem_cons_self p rest) hai))
    | false => simp [hai]

theorem split_foldl_ai_found (body : JSObject) :
    ∀ (acc : JSObject × JSObject) (k : String) (v : JSValue),
    strStartsWith k "ai_summary." = true →
    (body.map Prod.fst).Nodup → (k, v) ∈ body →
    (body.foldl splitConfigStep acc).2.lookup (stripAIKey k) = some v := by
  induction body with
  | nil => intro acc k v _ _ hmem; simp at hmem
  | cons p rest ih =>
    intro acc k v hpre hnd hmem
    simp only [List.map_cons, List.nodup_cons] at hnd
    rcases List.mem_cons.mp hmem with heq | hmem'
    · obtain rfl := heq.symm
      simp only [List.foldl_cons]
      rw [split_foldl_ai_preserve rest _ (stripAIKey k) ?_]
      · unfold splitConfigStep
        have hai : isAIConfigKey k = true := by
          rw [isAIConfigKey_eq]; exact hpre
        simp only [hai, if_true]
        exact lookup_objSet_self acc.2 (stripAIKey k) v
      · intro q hq hqai hstrip
        have hqpre : strStartsWith q.1 "ai_summary." = true := by
          rw [← isAIConfigKey_eq]; exact hqai
        have hq1 : q.1 = k := by
          rw [← stripAIKey_concat hqpre, ← stripAIKey_concat hpre, hstrip]
        have hqm : q.1 ∈ List.map Prod.fst rest := List.mem_map_of_mem Prod.fst hq
        rw [hq1] at hqm
        exact hnd.1 hqm
    · simp only [List.foldl_cons]
      exact ih _ k v hpre hnd.2 hmem'



theorem lookup_fold_env_split (env : EnvVars) (store : JSObject)
    (pre suf : List (String × String)) (ck ek : String)
    (hsuf : ∀ p ∈ suf, p.1 ≠ ck) :
    ((pre ++ (ck, ek) :: suf).foldl (applyEnvDefault env) store).lookup ck =
      (applyEnvDefault env (pre.foldl (applyEnvDefault env) store)
        (ck, ek)).lookup ck := by
  rw [List.foldl_append, List.foldl_cons]
  exact lookup_env_stages_ne env suf _ ck hsuf


theorem jsOrStrOpt_some_empty (v : String) : jsOrStrOpt (some v) "" = v := by
  show (if v = "" then "" else v) = v
  split
  · rename_i h
    exact h.symm
  · rfl

theorem hasSub_prefix401_ff {l : List Char}
    (h : hasSub "fetch failed".toList l = false) :
    hasSub "fetch failed".toList ("API error 401: ".toList ++ l) = false := by
  rw [show ("fetch failed" : String).toList =
    'f' :: "etch failed".toList from rfl] at h ⊢
  rw [hasSub_append_no_head _ (by decide)]
  exact h

theorem hasSub_prefix401_ne {l : List Char}
    (h : hasSub "NetworkError".toList l = false) :
    hasSub "NetworkError".toList ("API error 401: ".toList ++ l) = false := by
  rw [show ("NetworkError" : String).toList =
    'N' :: "etworkError".toList from rfl] at h ⊢
  rw [hasSub_append_no_head _ (by decide)]
  exact h

theorem hasSub_prefix401_401 (l : List Char) :
    hasSub "401".toList ("API error 401: ".toList ++ l) = true :=
  hasSub_append_left l (by decide)

theorem string_append_ne_empty (a b : String) (ha : a.data ≠ []) :
    a ++ b ≠ "" := by
  intro h
  have h2 : (a ++ b).data = ("" : String).data := congrArg String.data h
  rw [String.data_append] at h2
  exact ha (List.append_eq_nil.mp h2).1

theorem executeExternalAI_status_error (t : Transport)
    (cfg : ExternalAIConfig) (input : String) (hk : cfg.api_key ≠ "")
    (url : String)
    (hurl : (if cfg.api_url != "" then cfg.api_url
      else (AI_PROVIDER_URLS.lookup cfg.provider).getD "") = url)
    (hne : url ≠ "") (status : Nat) (bodyText : String) (j : JSValue)
    (hresp : t (mkChatRequest url cfg.api_key cfg.model input) =
      .ok ⟨false, status, bodyText, j⟩) :
    executeExternalAI t cfg input =
      .error ("API error " ++ toString status ++ ": " ++ bodyText) := by
  simp only [executeExternalAI, hurl]
  rw [if_neg hk, if_neg hne, hresp]
  simp

/-! ## Claims -/

/-- C9: for every known alias in the Model Registry, `getWorkerAIModelId`
returns the exact registered full identifier, and for every string not in
the registry it returns that string unchanged, never failing. -/
theorem getWorkerAIModelId_resolution :
    (∀ a f, (a, f) ∈ WORKER_AI_MODELS → getWorkerAIModelId a = f) ∧
    (∀ s, WORKER_AI_MODELS.lookup s = none → getWorkerAIModelId s = s) := by
  constructor
  · intro a f h
    fin_cases h <;> decide
  · intro s h
    simp [getWorkerAIModelId, h]

/-- C9 witness: the theorem applied to a known alias and to an unknown
name. -/
theorem getWorkerAIModelId_resolution_wit :
    (("llama-3-8b", "@cf/meta/llama-3-8b-instruct") ∈ WORKER_AI_MODELS ∧
      getWorkerAIModelId "llama-3-8b" = "@cf/meta/llama-3-8b-instruct") ∧
    (WORKER_AI_MODELS.lookup "gpt-oss" = none ∧
      getWorkerAIModelId "gpt-oss" = "gpt-oss") :=
  ⟨⟨by decide, getWorkerAIModelId_resolution.1 _ _ (by decide)⟩,
   ⟨by decide, getWorkerAIModelId_resolution.2 "gpt-oss" (by decide)⟩⟩

/-- C4: for every non-worker-ai provider, the external client fails before
any network request (the result is the same for every transport): with
"API key not configured" when `api_key` is empty, and — the key check
passing — with "API URL not configured" when neither an explicit `api_url`
nor a registry default URL for the provider exists. -/
theorem executeExternalAI_config_errors (t : Transport)
    (cfg : ExternalAIConfig) (input : String)
    (hp : cfg.provider ≠ "worker-ai") :
    (cfg.api_key = "" →
      executeExternalAI t cfg input = .error "API key not configured") ∧
    (cfg.api_key ≠ "" → cfg.api_url = "" →
      AI_PROVIDER_URLS.lookup cfg.provider = none →
      executeExternalAI t cfg input = .error "API URL not configured") := by
  constructor
  · intro hk
    simp [executeExternalAI, hk]
  · intro hk hu hl
    simp [executeExternalAI, hk, hu, hl]

/-- C4 witness: empty key with provider `openai`, and a provider with
neither explicit URL nor registry default; both fail on a transport that
would fail every actual network request. -/
theorem executeExternalAI_config_errors_wit :
    executeExternalAI tNoNetwork ⟨"openai", "gpt-4o", "", ""⟩ "Hi" =
      .error "API key not configured" ∧
    executeExternalAI tNoNetwork ⟨"my-provider", "m", "sk-1", ""⟩ "Hi" =
      .error "API URL not configured" :=
  ⟨(executeExternalAI_config_errors tNoNetwork ⟨"openai", "gpt-4o", "", ""⟩
      "Hi" (by decide)).1 rfl,
   (executeExternalAI_config_errors tNoNetwork ⟨"my-provider", "m", "sk-1", ""⟩
      "Hi" (by decide)).2 (by decide) rfl (by decide)⟩

/-- C2 (amended): in the test invocation, `api_url` and `api_key` overrides
win whenever they are not undefined (an explicit empty string included),
but `provider` and `model` are combined with the JS `||`: a non-empty
caller value wins, while undefined or an explicit empty string falls back
to the stored config. -/
theorem buildTestConfig_overrides (body : TestBody) (config : AIConfig) :
    (∀ u, body.api_url = some u → (buildTestConfig body config).api_url = some u) ∧
    (body.api_url = none →
      (buildTestConfig body config).api_url = some config.api_url) ∧
    (∀ s, body.api_key = some s → (buildTestConfig body config).api_key = some s) ∧
    (body.api_key = none →
      (buildTestConfig body config).api_key = some config.api_key) ∧
    (∀ p, body.provider = some p → p ≠ "" →
      (buildTestConfig body config).provider = p) ∧
    (body.provider = none ∨ body.provider = some "" →
      (buildTestConfig body config).provider = config.provider) ∧
    (∀ m, body.model = some m → m ≠ "" →
      (buildTestConfig body config).model = m) ∧
    (body.model = none ∨ body.model = some "" →
      (buildTestConfig body config).model = config.model) := by
  refine ⟨?_, ?_, ?_, ?_, ?_, ?_, ?_, ?_⟩
  · intro u h; simp [buildTestConfig, h]
  · intro h; simp [buildTestConfig, h]
  · intro s h; simp [buildTestConfig, h]
  · intro h; simp [buildTestConfig, h]
  · intro p h hne; simp [buildTestConfig, jsOrStrOpt, h, hne]
  · rintro (h | h) <;> simp [buildTestConfig, jsOrStrOpt, h]
  · intro m h hne; simp [buildTestConfig, jsOrStrOpt, h, hne]
  · rintro (h | h) <;> simp [buildTestConfig, jsOrStrOpt, h]

/-- C2 counterexample: an explicit empty-string `provider` override does
not win — the stored provider is used, refuting the claim that for each of
the four fields any non-undefined caller value (an empty string included)
wins. -/
theorem buildTestConfig_overrides_cex :
    (buildTestConfig ⟨some "", none, none, none, none⟩
      ⟨true, "openai", "gpt-4o", "sk", "https://u"⟩).provider = "openai" ∧
    ("openai" : String) ≠ "" :=
  ⟨rfl, by decide⟩

/-- C2 witness: empty-string `api_url`/`api_key` overrides win; absent
`provider` falls back to the stored one. -/
theorem buildTestConfig_overrides_wit :
    (buildTestConfig ⟨none, none, some "", some "", none⟩
      ⟨true, "openai", "gpt-4o", "sk", "https://u"⟩).api_url = some "" ∧
    (buildTestConfig ⟨none, none, some "", some "", none⟩
      ⟨true, "openai", "gpt-4o", "sk", "https://u"⟩).api_key = some "" ∧
    (buildTestConfig ⟨none, none, some "", some "", none⟩
      ⟨true, "openai", "gpt-4o", "sk", "https://u"⟩).provider = "openai" :=
  ⟨(buildTestConfig_overrides ⟨none, none, some "", some "", none⟩
      ⟨true, "openai", "gpt-4o", "sk", "https://u"⟩).1 "" rfl,
   (buildTestConfig_overrides ⟨none, none, some "", some "", none⟩
      ⟨true, "openai", "gpt-4o", "sk", "https://u"⟩).2.2.1 "" rfl,
   (buildTestConfig_overrides ⟨none, none, some "", some "", none⟩
      ⟨true, "openai", "gpt-4o", "sk", "https://u"⟩).2.2.2.2.2.1 (Or.inl rfl)⟩

/-- C6: summary generation never propagates an error: with `enabled =
false` it returns null for every runtime and transport (so no provider
invocation can influence it), whatever the other fields; and when the
dispatched provider call throws, the error is caught and the result is
null. -/
theorem generateAISummary_total (ai : WorkerRuntime) (t : Transport)
    (config : AIConfig) (content : String) :
    (config.enabled = false → generateAISummary ai t config content = jsNull) ∧
    (∀ e, config.provider = "worker-ai" →
      ai (getWorkerAIModelId config.model)
        (summaryPrompt (truncateContent content)) = .error e →
      generateAISummary ai t config content = jsNull) ∧
    (∀ e, config.provider ≠ "worker-ai" →
      executeExternalAI t (externalConfigOf config) (truncateContent content) =
        .error e →
      generateAISummary ai t config content = jsNull) := by
  refine ⟨?_, ?_, ?_⟩
  · intro h
    simp [generateAISummary, h]
  · intro e hp he
    cases hen : config.enabled with
    | false => simp [generateAISummary, hen]
    | true => simp [generateAISummary, hen, hp, executeWorkerAI, he, Except.map]
  · intro e hp he
    cases hen : config.enabled with
    | false => simp [generateAISummary, hen]
    | true => simp [generateAISummary, hen, hp, he, Except.map]

/-- C6 witness: a disabled config returns null; a throwing worker runtime
and a throwing transport both yield null. -/
theorem generateAISummary_total_wit :
    generateAISummary aiBoom tNoNetwork ⟨false, "worker-ai", "m", "", ""⟩ "c" =
      jsNull ∧
    generateAISummary aiBoom tNoNetwork ⟨true, "worker-ai", "m", "", ""⟩ "c" =
      jsNull ∧
    generateAISummary aiBoom tNoNetwork ⟨true, "openai", "m", "sk", ""⟩ "c" =
      jsNull :=
  ⟨(generateAISummary_total aiBoom tNoNetwork
      ⟨false, "worker-ai", "m", "", ""⟩ "c").1 rfl,
   (generateAISummary_total aiBoom tNoNetwork
      ⟨true, "worker-ai", "m", "", ""⟩ "c").2.1 "boom" rfl rfl,
   (generateAISummary_total aiBoom tNoNetwork
      ⟨true, "openai", "m", "sk", ""⟩ "c").2.2 "fetch failed" (by decide) rfl⟩


/-- C7: after any non-empty AI key is stored, reading the server config
returns the fixed placeholder under `ai_summary.api_key` (and the output is
the same for any two non-empty stored keys, so the raw value never
leaks); with no key stored (empty), it returns the empty string, which is
not the placeholder. -/
theorem getServerConfig_masking (store : JSObject) (stored : AIConfig) :
    (stored.api_key ≠ "" →
      (getServerConfig store stored).lookup "ai_summary.api_key" =
        some (jsStr "••••••••")) ∧
    (stored.api_key = "" →
      (getServerConfig store stored).lookup "ai_summary.api_key" =
        some (jsStr "")) ∧
    (∀ k k', k ≠ "" → k' ≠ "" →
      getServerConfig store { stored with api_key := k } =
        getServerConfig store { stored with api_key := k' }) ∧
    jsStr "" ≠ jsStr "••••••••" := by
  refine ⟨?_, ?_, ?_, by simp⟩
  · intro h
    have hb : (stored.api_key != "") = true := bne_iff_ne.mpr h
    simp only [getServerConfig, getAIConfigForFrontend, hb, if_true]
    rw [lookup_maskSensitiveFields, lookup_objSet_self]
    rfl
  · intro h
    have hb : (stored.api_key != "") = false := by simp [h]
    simp only [getServerConfig, getAIConfigForFrontend, hb,
      Bool.false_eq_true, if_false]
    rw [lookup_maskSensitiveFields, lookup_objSet_self]
    rfl
  · intro k k' hk hk'
    have h1 : (k != "") = true := bne_iff_ne.mpr hk
    have h2 : (k' != "") = true := bne_iff_ne.mpr hk'
    simp [getServerConfig, getAIConfigForFrontend, h1, h2]

/-- C7 witness: the theorem at a concrete store and key
(`sk-real-value`), and at a never-set (empty) key. -/
theorem getServerConfig_masking_wit :
    (getServerConfig [] ⟨true, "openai", "gpt-4o", "sk-real-value", ""⟩).lookup
      "ai_summary.api_key" = some (jsStr "••••••••") ∧
    (getServerConfig [] ⟨true, "openai", "gpt-4o", "", ""⟩).lookup
      "ai_summary.api_key" = some (jsStr "") :=
  ⟨(getServerConfig_masking []
      ⟨true, "openai", "gpt-4o", "sk-real-value", ""⟩).1 (by decide),
   (getServerConfig_masking [] ⟨true, "openai", "gpt-4o", "", ""⟩).2.1 rfl⟩

/-- C10: every body key starting with `ai_summary.` is an AI config key,
is never written to the generic namespace store part of the split, and
(for a JS object body, whose keys are unique) lands in the AI update map
under the prefix-stripped key with its value. -/
theorem configWrite_ai_rerouting (body : JSObject) (k : String) (v : JSValue)
    (hpre : strStartsWith k "ai_summary." = true) :
    isAIConfigKey k = true ∧
    "ai_summary." ++ stripAIKey k = k ∧
    (splitConfigBody body).1.lookup k = none ∧
    ((body.map Prod.fst).Nodup → (k, v) ∈ body →
      (splitConfigBody body).2.lookup (stripAIKey k) = some v) := by
  have hai : isAIConfigKey k = true := by rw [isAIConfigKey_eq]; exact hpre
  refine ⟨hai, stripAIKey_concat hpre, ?_, ?_⟩
  · unfold splitConfigBody
    rw [split_foldl_reg_none body ([], []) k hai]
    rfl
  · intro hnd hmem
    exact split_foldl_ai_found body ([], []) k v hpre hnd hmem

/-- C10 witness: a body mixing an AI key and a site key; the AI key is
rerouted (prefix stripped) and kept out of the generic store writes. -/
theorem configWrite_ai_rerouting_wit :
    isAIConfigKey "ai_summary.model" = true ∧
    "ai_summary." ++ stripAIKey "ai_summary.model" = "ai_summary.model" ∧
    (splitConfigBody [("ai_summary.model", jsStr "gpt-4o"),
      ("site.name", jsStr "Acme")]).1.lookup "ai_summary.model" = none ∧
    (splitConfigBody [("ai_summary.model", jsStr "gpt-4o"),
      ("site.name", jsStr "Acme")]).2.lookup (stripAIKey "ai_summary.model") =
      some (jsStr "gpt-4o") := by
  obtain ⟨h1, h2, h3, h4⟩ := configWrite_ai_rerouting
    [("ai_summary.model", jsStr "gpt-4o"), ("site.name", jsStr "Acme")]
    "ai_summary.model" (jsStr "gpt-4o") (by decide)
  exact ⟨h1, h2, h3, h4 (by decide) (List.mem_cons_self _ _)⟩


/-- C8 (amended): on client-namespace reads, for each of the four declared
keys, a non-empty environment value is substituted when the stored value
is absent, undefined or the empty string (an absent or empty environment
value substitutes nothing); a stored non-empty value always wins over the
environment; and `site.page_size` defaults to 5 when still unset or empty
after env substitution. -/
theorem clientConfig_env_defaults (store : JSObject) (env : EnvVars) :
    (∀ ck ek, (ck, ek) ∈ CLIENT_CONFIG_ENV_DEFAULTS →
      (∀ e, unsetOrEmpty store ck = true → env ek = some e → e ≠ "" →
        (getClientConfigWithDefaults store env).lookup ck = some (jsStr e)) ∧
      (∀ w, store.lookup ck = some w → w ≠ jsStr "" → w ≠ jsUndefined →
        (getClientConfigWithDefaults store env).lookup ck = some w)) ∧
    (unsetOrEmpty store "site.page_size" = true →
      (env "PAGE_SIZE" = none ∨ env "PAGE_SIZE" = some "") →
      (getClientConfigWithDefaults store env).lookup "site.page_size" =
        some (jsNum 5)) := by
  constructor
  · intro ck ek hm
    fin_cases hm
    · constructor
      · intro e hu he hne
        have hmid := lookup_fold_env_split env store []
          [("site.description", "DESCRIPTION"), ("site.avatar", "AVATAR"), ("site.page_size", "PAGE_SIZE")] "site.name" "NAME" (by decide)
        have hsto := lookup_env_stages_ne env [] store "site.name" (by decide)
        have hu' : unsetOrEmpty
            (List.foldl (applyEnvDefault env) store []) "site.name" = true := by
          rw [unsetOrEmpty_congr hsto]; exact hu
        simp only [getClientConfigWithDefaults]
        rw [lookup_pageStep_ne _ (by decide),
          show CLIENT_CONFIG_ENV_DEFAULTS = [] ++ ("site.name", "NAME") :: [("site.description", "DESCRIPTION"), ("site.avatar", "AVATAR"), ("site.page_size", "PAGE_SIZE")] from rfl,
          hmid, applyEnvDefault_subst env _ ("site.name", "NAME") hu' he hne]
        exact lookup_objSet_self _ _ _
      · intro w hw h1 h2
        have hu0 : unsetOrEmpty store "site.name" = false :=
          unsetOrEmpty_false_of_lookup hw h1 h2
        have hmid := lookup_fold_env_split env store []
          [("site.description", "DESCRIPTION"), ("site.avatar", "AVATAR"), ("site.page_size", "PAGE_SIZE")] "site.name" "NAME" (by decide)
        have hsto := lookup_env_stages_ne env [] store "site.name" (by decide)
        have hu' : unsetOrEmpty
            (List.foldl (applyEnvDefault env) store []) "site.name" = false := by
          rw [unsetOrEmpty_congr hsto]; exact hu0
        simp only [getClientConfigWithDefaults]
        rw [lookup_pageStep_ne _ (by decide),
          show CLIENT_CONFIG_ENV_DEFAULTS = [] ++ ("site.name", "NAME") :: [("site.description", "DESCRIPTION"), ("site.avatar", "AVATAR"), ("site.page_size", "PAGE_SIZE")] from rfl,
          hmid, applyEnvDefault_of_set env _ ("site.name", "NAME") hu', hsto]
        exact hw
    · constructor
      · intro e hu he hne
        have hmid := lookup_fold_env_split env store [("site.name", "NAME")]
          [("site.avatar", "AVATAR"), ("site.page_size", "PAGE_SIZE")] "site.description" "DESCRIPTION" (by decide)
        have hsto := lookup_env_stages_ne env [("site.name", "NAME")] store "site.description" (by decide)
        have hu' : unsetOrEmpty
            (List.foldl (applyEnvDefault env) store [("site.name", "NAME")]) "site.description" = true := by
          rw [unsetOrEmpty_congr hsto]; exact hu
        simp only [getClientConfigWithDefaults]
        rw [lookup_pageStep_ne _ (by decide),
          show CLIENT_CONFIG_ENV_DEFAULTS = [("site.name", "NAME")] ++ ("site.description", "DESCRIPTION") :: [("site.avatar", "AVATAR"), ("site.page_size", "PAGE_SIZE")] from rfl,
          hmid, applyEnvDefault_subst env _ ("site.description", "DESCRIPTION") hu' he hne]
        exact lookup_objSet_self _ _ _
      · intro w hw h1 h2
        have hu0 : unsetOrEmpty store "site.description" = false :=
          unsetOrEmpty_false_of_lookup hw h1 h2
        have hmid := lookup_fold_env_split env store [("site.name", "NAME")]
          [("site.avatar", "AVATAR"), ("site.page_size", "PAGE_SIZE")] "site.description" "DESCRIPTION" (by decide)
        have hsto := lookup_env_stages_ne env [("site.name", "NAME")] store "site.description" (by decide)
        have hu' : unsetOrEmpty
            (List.foldl (applyEnvDefault env) store [("site.name", "NAME")]) "site.description" = false := by
          rw [unsetOrEmpty_congr hsto]; exact hu0
        simp only [getClientConfigWithDefaults]
        rw [lookup_pageStep_ne _ (by decide),
          show CLIENT_CONFIG_ENV_DEFAULTS = [("site.name", "NAME")] ++ ("site.description", "DESCRIPTION") :: [("site.avatar", "AVATAR"), ("site.page_size", "PAGE_SIZE")] from rfl,
          hmid, applyEnvDefault_of_set env _ ("site.description", "DESCRIPTION") hu', hsto]
        exact hw
    · constructor
      · intro e hu he hne
        have hmid := lookup_fold_env_split env store [("site.name", "NAME"), ("site.description", "DESCRIPTION")]
          [("site.page_size", "PAGE_SIZE")] "site.avatar" "AVATAR" (by decide)
        have hsto := lookup_env_stages_ne env [("site.name", "NAME"), ("site.description", "DESCRIPTION")] store "site.avatar" (by decide)
        have hu' : unsetOrEmpty
            (List.foldl (applyEnvDefault env) store [("site.name", "NAME"), ("site.description", "DESCRIPTION")]) "site.avatar" = true := by
          rw [unsetOrEmpty_congr hsto]; exact hu
        simp only [getClientConfigWithDefaults]
        rw [lookup_pageStep_ne _ (by decide),
          show CLIENT_CONFIG_ENV_DEFAULTS = [("site.name", "NAME"), ("site.description", "DESCRIPTION")] ++ ("site.avatar", "AVATAR") :: [("site.page_size", "PAGE_SIZE")] from rfl,
          hmid, applyEnvDefault_subst env _ ("site.avatar", "AVATAR") hu' he hne]
        exact lookup_objSet_self _ _ _
      · intro w hw h1 h2
        have hu0 : unsetOrEmpty store "site.avatar" = false :=
          unsetOrEmpty_false_of_lookup hw h1 h2
        have hmid := lookup_fold_env_split env store [("site.name", "NAME"), ("site.description", "DESCRIPTION")]
          [("site.page_size", "PAGE_SIZE")] "site.avatar" "AVATAR" (by decide)
        have hsto := lookup_env_stages_ne env [("site.name", "NAME"), ("site.description", "DESCRIPTION")] store "site.avatar" (by decide)
        have hu' : unsetOrEmpty
            (List.foldl (applyEnvDefault env) store [("site.name", "NAME"), ("site.description", "DESCRIPTION")]) "site.avatar" = false := by
          rw [unsetOrEmpty_congr hsto]; exact hu0
        simp only [getClientConfigWithDefaults]
        rw [lookup_pageStep_ne _ (by decide),
          show CLIENT_CONFIG_ENV_DEFAULTS = [("site.name", "NAME"), ("site.description", "DESCRIPTION")] ++ ("site.avatar", "AVATAR") :: [("site.page_size", "PAGE_SIZE")] from rfl,
          hmid, applyEnvDefault_of_set env _ ("site.avatar", "AVATAR") hu', hsto]
        exact hw
    · constructor
      · intro e hu he hne
        have hmid := lookup_fold_env_split env store [("site.name", "NAME"), ("site.description", "DESCRIPTION"), ("site.avatar", "AVATAR")]
          [] "site.page_size" "PAGE_SIZE" (by decide)
        have hsto := lookup_env_stages_ne env [("site.name", "NAME"), ("site.description", "DESCRIPTION"), ("site.avatar", "AVATAR")] store
          "site.page_size" (by decide)
        have hu' : unsetOrEmpty (List.foldl (applyEnvDefault env) store
            [("site.name", "NAME"), ("site.description", "DESCRIPTION"), ("site.avatar", "AVATAR")]) "site.page_size" = true := by
          rw [unsetOrEmpty_congr hsto]; exact hu
        have hfold : (CLIENT_CONFIG_ENV_DEFAULTS.foldl (applyEnvDefault env)
            store).lookup "site.page_size" = some (jsStr e) := by
          rw [show CLIENT_CONFIG_ENV_DEFAULTS =
              [("site.name", "NAME"), ("site.description", "DESCRIPTION"), ("site.avatar", "AVATAR")] ++ ("site.page_size", "PAGE_SIZE") :: [] from rfl,
            hmid, applyEnvDefault_subst env _ ("site.page_size", "PAGE_SIZE") hu' he hne]
          exact lookup_objSet_self _ _ _
        have hunset : unsetOrEmpty (CLIENT_CONFIG_ENV_DEFAULTS.foldl
            (applyEnvDefault env) store) "site.page_size" = false :=
          unsetOrEmpty_false_of_lookup hfold
            (fun h => hne (JSValue.jsStr.inj h)) (fun h => JSValue.noConfusion h)
        simp only [getClientConfigWithDefaults, hunset, Bool.false_eq_true,
          if_false]
        exact hfold
      · intro w hw h1 h2
        have hu0 : unsetOrEmpty store "site.page_size" = false :=
          unsetOrEmpty_false_of_lookup hw h1 h2
        have hmid := lookup_fold_env_split env store [("site.name", "NAME"), ("site.description", "DESCRIPTION"), ("site.avatar", "AVATAR")]
          [] "site.page_size" "PAGE_SIZE" (by decide)
        have hsto := lookup_env_stages_ne env [("site.name", "NAME"), ("site.description", "DESCRIPTION"), ("site.avatar", "AVATAR")] store
          "site.page_size" (by decide)
        have hu' : unsetOrEmpty (List.foldl (applyEnvDefault env) store
            [("site.name", "NAME"), ("site.description", "DESCRIPTION"), ("site.avatar", "AVATAR")]) "site.page_size" = false := by
          rw [unsetOrEmpty_congr hsto]; exact hu0
        have hfold : (CLIENT_CONFIG_ENV_DEFAULTS.foldl (applyEnvDefault env)
            store).lookup "site.page_size" = some w := by
          rw [show CLIENT_CONFIG_ENV_DEFAULTS =
              [("site.name", "NAME"), ("site.description", "DESCRIPTION"), ("site.avatar", "AVATAR")] ++ ("site.page_size", "PAGE_SIZE") :: [] from rfl,
            hmid, applyEnvDefault_of_set env _ ("site.page_size", "PAGE_SIZE") hu', hsto]
          exact hw
        have hunset : unsetOrEmpty (CLIENT_CONFIG_ENV_DEFAULTS.foldl
            (applyEnvDefault env) store) "site.page_size" = false :=
          unsetOrEmpty_false_of_lookup hfold h1 h2
        simp only [getClientConfigWithDefaults, hunset, Bool.false_eq_true,
          if_false]
        exact hfold
  · intro hu hev
    have hmid := lookup_fold_env_split env store [("site.name", "NAME"), ("site.description", "DESCRIPTION"), ("site.avatar", "AVATAR")]
      [] "site.page_size" "PAGE_SIZE" (by decide)
    have hsto := lookup_env_stages_ne env [("site.name", "NAME"), ("site.description", "DESCRIPTION"), ("site.avatar", "AVATAR")] store
      "site.page_size" (by decide)
    have hfold : (CLIENT_CONFIG_ENV_DEFAULTS.foldl (applyEnvDefault env)
        store).lookup "site.page_size" = store.lookup "site.page_size" := by
      rw [show CLIENT_CONFIG_ENV_DEFAULTS = [("site.name", "NAME"), ("site.description", "DESCRIPTION"), ("site.avatar", "AVATAR")] ++ ("site.page_size", "PAGE_SIZE") :: [] from rfl,
        hmid, applyEnvDefault_noop env _ ("site.page_size", "PAGE_SIZE") hev, hsto]
    have hunset : unsetOrEmpty (CLIENT_CONFIG_ENV_DEFAULTS.foldl
        (applyEnvDefault env) store) "site.page_size" = true := by
      rw [unsetOrEmpty_congr hfold]; exact hu
    simp only [getClientConfigWithDefaults, hunset, if_true]
    exact lookup_objSet_self _ _ _


/-- C8 counterexample: with an empty client store and environment `NAME`
present but empty, no substitution happens — the read yields no
`site.name` entry at all, not the environment-supplied empty string the
claim calls for. -/
theorem clientConfig_env_defaults_cex :
    (getClientConfigWithDefaults [] envNameEmpty).lookup "site.name" = none ∧
    (none : Option JSValue) ≠ some (jsStr "") :=
  ⟨rfl, by simp⟩

/-- C8 witness: the theorem applied with env `NAME=Acme`: an empty store
is env-substituted, a non-empty stored value wins, and `site.page_size`
defaults to 5. -/
theorem clientConfig_env_defaults_wit :
    (getClientConfigWithDefaults [] envNameAcme).lookup "site.name" =
      some (jsStr "Acme") ∧
    (getClientConfigWithDefaults [("site.name", jsStr "Stored")]
      envNameAcme).lookup "site.name" = some (jsStr "Stored") ∧
    (getClientConfigWithDefaults [] envNameAcme).lookup "site.page_size" =
      some (jsNum 5) :=
  ⟨((clientConfig_env_defaults [] envNameAcme).1 "site.name" "NAME"
      (by decide)).1 "Acme" rfl rfl (by decide),
   ((clientConfig_env_defaults [("site.name", jsStr "Stored")]
      envNameAcme).1 "site.name" "NAME" (by decide)).2 (jsStr "Stored") rfl
      (fun h => absurd (JSValue.jsStr.inj h) (by decide))
      (fun h => JSValue.noConfusion h),
   (clientConfig_env_defaults [] envNameAcme).2 rfl (Or.inl rfl)⟩

/-- C3 (amended): the in-runtime client's normalization checks, in order,
for the presence of the fields `response`, `content`, `output`, `result`
and returns the first present field's value (whatever it is); if none of
those fields exist but the value is a string it returns it; any other
(truthy) object is returned as its JSON serialization; and it returns null
exactly when the runtime returned a value that is neither a truthy object
nor a string, or a truthy object whose first present field holds null. -/
theorem normalizeWorkerAI_branches :
    (∀ r v, (jsTruthy r && typeofIsObject r) = true →
      jsGetOpt r "response" = some v → normalizeWorkerAI r = v) ∧
    (∀ r v, (jsTruthy r && typeofIsObject r) = true →
      jsGetOpt r "response" = none → jsGetOpt r "content" = some v →
      normalizeWorkerAI r = v) ∧
    (∀ r v, (jsTruthy r && typeofIsObject r) = true →
      jsGetOpt r "response" = none → jsGetOpt r "content" = none →
      jsGetOpt r "output" = some v → normalizeWorkerAI r = v) ∧
    (∀ r v, (jsTruthy r && typeofIsObject r) = true →
      jsGetOpt r "response" = none → jsGetOpt r "content" = none →
      jsGetOpt r "output" = none → jsGetOpt r "result" = some v →
      normalizeWorkerAI r = v) ∧
    (∀ r, (jsTruthy r && typeofIsObject r) = true →
      jsGetOpt r "response" = none → jsGetOpt r "content" = none →
      jsGetOpt r "output" = none → jsGetOpt r "result" = none →
      normalizeWorkerAI r = jsStr (jsonStringify r)) ∧
    (∀ s, normalizeWorkerAI (jsStr s) = jsStr s) ∧
    (∀ r, normalizeWorkerAI r = jsNull ↔
      (((jsTruthy r && typeofIsObject r) = false ∧ typeofIsString r = false) ∨
       ((jsTruthy r && typeofIsObject r) = true ∧
        firstWorkerField r = some jsNull))) := by
  refine ⟨?_, ?_, ?_, ?_, ?_, ?_, ?_⟩
  · intro r v hobj h1
    simp [normalizeWorkerAI, hobj, h1]
  · intro r v hobj h1 h2
    simp [normalizeWorkerAI, hobj, h1, h2]
  · intro r v hobj h1 h2 h3
    simp [normalizeWorkerAI, hobj, h1, h2, h3]
  · intro r v hobj h1 h2 h3 h4
    simp [normalizeWorkerAI, hobj, h1, h2, h3, h4]
  · intro r hobj h1 h2 h3 h4
    simp [normalizeWorkerAI, hobj, h1, h2, h3, h4]
  · intro s
    simp [normalizeWorkerAI, jsTruthy, typeofIsObject, typeofIsString]
  · intro r
    cases r with
    | jsUndefined =>
      simp [normalizeWorkerAI, jsTruthy, typeofIsObject, typeofIsString]
    | jsNull =>
      simp [normalizeWorkerAI, jsTruthy, typeofIsObject, typeofIsString]
    | jsBool b =>
      simp [normalizeWorkerAI, jsTruthy, typeofIsObject, typeofIsString]
    | jsNum n =>
      simp [normalizeWorkerAI, jsTruthy, typeofIsObject, typeofIsString]
    | jsStr s =>
      simp [normalizeWorkerAI, jsTruthy, typeofIsObject, typeofIsString]
    | jsArr l =>
      simp [normalizeWorkerAI, firstWorkerField, jsGetOpt, jsTruthy,
        typeofIsObject, typeofIsString]
    | jsObj fs =>
      cases h1 : fs.lookup "response" with
      | some v =>
        simp [normalizeWorkerAI, firstWorkerField, jsGetOpt, jsTruthy,
          typeofIsObject, typeofIsString, h1]
      | none =>
        cases h2 : fs.lookup "content" with
        | some v =>
          simp [normalizeWorkerAI, firstWorkerField, jsGetOpt, jsTruthy,
            typeofIsObject, typeofIsString, h1, h2]
        | none =>
          cases h3 : fs.lookup "output" with
          | some v =>
            simp [normalizeWorkerAI, firstWorkerField, jsGetOpt, jsTruthy,
              typeofIsObject, typeofIsString, h1, h2, h3]
          | none =>
            cases h4 : fs.lookup "result" with
            | some v =>
              simp [normalizeWorkerAI, firstWorkerField, jsGetOpt, jsTruthy,
                typeofIsObject, typeofIsString, h1, h2, h3, h4]
            | none =>
              simp [normalizeWorkerAI, firstWorkerField, jsGetOpt, jsTruthy,
                typeofIsObject, typeofIsString, h1, h2, h3, h4]

/-- C3 counterexample: the runtime value `\x7b response: null \x7d` is an
object, yet normalization returns null — refuting the claim that null is
returned exactly for non-object, non-string runtime values (and showing
the field check is on presence, not on being a string). -/
theorem normalizeWorkerAI_branches_cex :
    normalizeWorkerAI (jsObj [("response", jsNull)]) = jsNull ∧
    typeofIsObject (jsObj [("response", jsNull)]) = true ∧
    jsTruthy (jsObj [("response", jsNull)]) = true :=
  ⟨rfl, rfl, rfl⟩

/-- C3 witness: the theorem applied to concrete runtime shapes — ordered
extraction, string passthrough, stringify fallback, and the null
characterization at a number. -/
theorem normalizeWorkerAI_branches_wit :
    normalizeWorkerAI (jsObj [("content", jsStr "hi"),
      ("result", jsStr "no")]) = jsStr "hi" ∧
    normalizeWorkerAI (jsStr "plain") = jsStr "plain" ∧
    normalizeWorkerAI (jsObj [("other", jsStr "x")]) =
      jsStr (jsonStringify (jsObj [("other", jsStr "x")])) ∧
    (normalizeWorkerAI (jsNum 42) = jsNull ↔
      (((jsTruthy (jsNum 42) && typeofIsObject (jsNum 42)) = false ∧
        typeofIsString (jsNum 42) = false) ∨
       ((jsTruthy (jsNum 42) && typeofIsObject (jsNum 42)) = true ∧
        firstWorkerField (jsNum 42) = some jsNull))) :=
  ⟨normalizeWorkerAI_branches.2.1 (jsObj [("content", jsStr "hi"),
      ("result", jsStr "no")]) (jsStr "hi") rfl rfl rfl,
   normalizeWorkerAI_branches.2.2.2.2.2.1 "plain",
   normalizeWorkerAI_branches.2.2.2.2.1 (jsObj [("other", jsStr "x")])
     rfl rfl rfl rfl rfl,
   normalizeWorkerAI_branches.2.2.2.2.2.2 (jsNum 42)⟩


/-- C1 (amended): for every enabled config, summary generation truncates
the content to at most 8000 units, appending the "..." marker exactly when
it truncates; for the worker-ai provider it dispatches the fixed-language
summarization instruction prompt built from the truncated content to the
in-runtime client; for every other provider it dispatches the truncated
content itself — without the instruction prompt — to the external
client. -/
theorem generateAISummary_dispatch (ai : WorkerRuntime) (t : Transport)
    (config : AIConfig) (content : String) (hen : config.enabled = true) :
    (content.length ≤ 8000 → truncateContent content = content) ∧
    (content.length > 8000 →
      truncateContent content = (⟨content.data.take 8000⟩ : String) ++ "..." ∧
      (truncateContent content).length = 8003) ∧
    (config.provider = "worker-ai" →
      generateAISummary ai t config content =
        match executeWorkerAI ai (getWorkerAIModelId config.model)
            (summaryPrompt (truncateContent content)) with
        | .ok r => r
        | .error _ => jsNull) ∧
    (config.provider ≠ "worker-ai" →
      generateAISummary ai t config content =
        match (executeExternalAI t (externalConfigOf config)
            (truncateContent content)).map optStrToJS with
        | .ok r => r
        | .error _ => jsNull) := by
  refine ⟨?_, ?_, ?_, ?_⟩
  · intro h
    unfold truncateContent
    rw [if_neg (by omega)]
  · intro h
    have heq : truncateContent content =
        (⟨content.data.take 8000⟩ : String) ++ "..." := by
      unfold truncateContent
      rw [if_pos h]
    refine ⟨heq, ?_⟩
    rw [heq]
    show ((⟨content.data.take 8000⟩ : String) ++ "...").data.length = 8003
    rw [String.data_append]
    rw [List.length_append, List.length_take]
    have hlen : content.length = content.data.length := rfl
    rw [hlen] at h
    have : ("..." : String).data.length = 3 := by decide
    omega
  · intro hp
    simp [generateAISummary, hen, hp]
  · intro hp
    simp [generateAISummary, hen, hp]

/-- C1 counterexample: with provider `openai` and a transport echoing the
dispatched text back as the completion, the summary result is the bare
content — the external client was handed the truncated content, not the
instruction prompt the claim says is dispatched for every provider. -/
theorem generateAISummary_dispatch_cex :
    generateAISummary aiBoom tEcho ⟨true, "openai", "gpt-4o", "sk-x", ""⟩
      "hello" = jsStr "hello" ∧
    "hello" ≠ summaryPrompt "hello" :=
  ⟨rfl, by decide⟩

/-- C1 witness: short content is not truncated; 9000-unit content is cut
to 8003 units with the marker; and both dispatch equations hold at
concrete configs. -/
theorem generateAISummary_dispatch_wit :
    truncateContent "hello" = "hello" ∧
    (truncateContent (⟨List.replicate 9000 'a'⟩ : String)).length = 8003 ∧
    generateAISummary aiBoom tEcho ⟨true, "openai", "gpt-4o", "sk-x", ""⟩
        "hello" =
      (match (executeExternalAI tEcho (externalConfigOf
          ⟨true, "openai", "gpt-4o", "sk-x", ""⟩)
          (truncateContent "hello")).map optStrToJS with
        | .ok r => r
        | .error _ => jsNull) ∧
    generateAISummary aiBoom tEcho ⟨true, "worker-ai", "llama-3-8b", "", ""⟩
        "hello" =
      (match executeWorkerAI aiBoom (getWorkerAIModelId "llama-3-8b")
          (summaryPrompt (truncateContent "hello")) with
        | .ok r => r
        | .error _ => jsNull) :=
  ⟨(generateAISummary_dispatch aiBoom tEcho
      ⟨true, "openai", "gpt-4o", "sk-x", ""⟩ "hello" rfl).1 (by decide),
   ((generateAISummary_dispatch aiBoom tEcho
      ⟨true, "openai", "gpt-4o", "sk-x", ""⟩ ⟨List.replicate 9000 'a'⟩
      rfl).2.1 (by rw [String.length_mk, List.length_replicate]; omega)).2,
   (generateAISummary_dispatch aiBoom tEcho
      ⟨true, "openai", "gpt-4o", "sk-x", ""⟩ "hello" rfl).2.2.2 (by decide),
   (generateAISummary_dispatch aiBoom tEcho
      ⟨true, "worker-ai", "llama-3-8b", "", ""⟩ "hello" rfl).2.2.1 rfl⟩

/-- C5 (amended): with provider `openai`, a non-empty key and a transport
answering HTTP 401, the external client fails with a message embedding the
numeric status and the raw body; provided the body does not itself contain
the earlier-matched network-error trigger substrings ("fetch failed",
"NetworkError"), the test invocation classifies the failure as
"Authentication failed: Invalid API key". -/
theorem testAIModel_http401 (ai : WorkerRuntime) (t : Transport)
    (model key input body : String) (j : JSValue) (hk : key ≠ "")
    (hresp : t (mkChatRequest "https://api.openai.com/v1" key model input) =
      .ok ⟨false, 401, body, j⟩)
    (hb1 : strIncludes body "fetch failed" = false)
    (hb2 : strIncludes body "NetworkError" = false) :
    executeExternalAI t ⟨"openai", model, key, ""⟩ input =
      .error ("API error 401: " ++ body) ∧
    testAIModel ai t ⟨"openai", model, some "", some key⟩ input =
      ⟨false, none, some "Authentication failed: Invalid API key",
       some "Please check your API key is correct and not expired."⟩ := by
  have hexec : executeExternalAI t ⟨"openai", model, key, ""⟩ input =
      .error ("API error 401: " ++ body) := by
    have h := executeExternalAI_status_error t ⟨"openai", model, key, ""⟩
      input hk "https://api.openai.com/v1" rfl (by decide) 401 body j hresp
    rw [h]
    rw [show "API error " ++ toString (401 : Nat) ++ ": " =
      "API error 401: " from by decide]
  refine ⟨hexec, ?_⟩
  have hmsg : ("API error 401: " ++ body) ≠ "" :=
    string_append_ne_empty _ _ (by decide)
  have hdata : ("API error 401: " ++ body).toList =
      "API error 401: ".toList ++ body.toList := String.data_append _ _
  have hff : strIncludes ("API error 401: " ++ body) "fetch failed" = false := by
    unfold strIncludes
    rw [hdata]
    exact hasSub_prefix401_ff hb1
  have hnet : strIncludes ("API error 401: " ++ body) "NetworkError" = false := by
    unfold strIncludes
    rw [hdata]
    exact hasSub_prefix401_ne hb2
  have h401 : strIncludes ("API error 401: " ++ body) "401" = true := by
    unfold strIncludes
    rw [hdata]
    exact hasSub_prefix401_401 _
  have hstep : testAIModel ai t ⟨"openai", model, some "", some key⟩ input =
      processAIError ("API error 401: " ++ body) model "openai" := by
    simp only [testAIModel, jsOrStrOpt_some_empty]
    rw [if_neg (by decide : ¬("openai" : String) = "worker-ai"), hexec]
    rfl
  rw [hstep]
  have horig : (if ("API error 401: " ++ body) = "" then "Unknown error"
      else ("API error 401: " ++ body)) = ("API error 401: " ++ body) :=
    if_neg hmsg
  simp only [processAIError, horig, hff, hnet, h401, Bool.false_or,
    Bool.true_or, Bool.false_eq_true, if_false]
  rfl

/-- C5 counterexample: a 401 response whose body is "NetworkError" is
classified as a network error, not as the authentication failure the claim
requires for every 401 response. -/
theorem testAIModel_http401_cex :
    testAIModel aiBoom t401NetworkErr
      ⟨"openai", "gpt-4o", some "", some "sk-test"⟩ "Hello" =
      ⟨false, none, some "Network error: Unable to connect to AI service",
       some "Please check your API URL and network connection."⟩ ∧
    "Network error: Unable to connect to AI service" ≠
      "Authentication failed: Invalid API key" :=
  ⟨rfl, by decide⟩

/-- C5 witness: the theorem at a 401 transport with a neutral body: the
error embeds status and body, and the classification is the
authentication failure. -/
theorem testAIModel_http401_wit :
    executeExternalAI t401 ⟨"openai", "gpt-4o", "sk-test", ""⟩ "Hello" =
      .error ("API error 401: " ++ "Unauthorized request") ∧
    testAIModel aiBoom t401 ⟨"openai", "gpt-4o", some "", some "sk-test"⟩
      "Hello" =
      ⟨false, none, some "Authentication failed: Invalid API key",
       some "Please check your API key is correct and not expired."⟩ :=
  ⟨(testAIModel_http401 aiBoom t401 "gpt-4o" "sk-test" "Hello"
      "Unauthorized request" jsNull (by decide) rfl (by decide) (by decide)).1,
   (testAIModel_http401 aiBoom t401 "gpt-4o" "sk-test" "Hello"
      "Unauthorized request" jsNull (by decide) rfl (by decide) (by decide)).2⟩

end Rin
